import Mathlib

/-!
Verification of the audio-qc repository's streaming / parsing / compliance core.

The definitions below are a shallow embedding of the TypeScript sources:
  * `FFmpegUtils.parseEBUOutput`      (src/utils/ffmpeg-utils.ts)
  * `StreamingAnalyzer.parseEBUOutput`, `getStreamingCapability`,
    `extractExtension`, `testStreamingCapability` (src/streaming-analyzer.ts)
  * `ComplianceChecker.checkCompliance` (src/compliance-checker.ts)
  * `EBU_R128_STANDARDS`, `EBU_R128_MUSIC_STANDARDS` (src/ebu-standards.ts)
  * `AudioQC.analyze`                 (src/index.ts)

Strings are handled as `List Char`; JavaScript numbers are modelled as `ℚ`
(every numeral in the diagnostic texts is decimal and exactly representable).
-/

/-- JavaScript `String.prototype.split(sep)` for a single-character
separator, on character lists: `"a\nb".split("\n") = ["a","b"]`,
`"".split("\n") = [""]`. -/
def splitOnChar (sep : Char) : List Char → List (List Char)
  | [] => [[]]
  | c :: rest =>
    let r := splitOnChar sep rest
    if c = sep then [] :: r
    else
      match r with
      | [] => [[c]]
      | h :: t => (c :: h) :: t

/-- JavaScript `String.prototype.includes(needle)`: `needle` occurs as a
contiguous substring of `hay`. -/
def containsSub (needle : List Char) : List Char → Bool
  | [] => needle.isEmpty
  | c :: rest => needle.isPrefixOf (c :: rest) || containsSub needle rest

/-- The whitespace characters matched by the JavaScript regex class `\s`
(restricted to the ASCII range, which is all that the ffmpeg diagnostic
texts contain). -/
def jsWhitespace (c : Char) : Bool :=
  c = ' ' || c = '\t' || c = '\r' || c = '\x0b' || c = '\x0c'

/-- The capture group of the numeric regex `-?\d+\.?\d*`: whether a
leading minus was present, the integer digits (nonempty), and the digits
after the optional dot. -/
structure NumCapture where
  neg : Bool
  intDs : List Char
  fracDs : List Char
deriving DecidableEq, Repr

/-- The digit string read as a natural number. -/
def digitsToNat (ds : List Char) : ℕ :=
  ds.foldl (fun a c => a * 10 + (c.toNat - '0'.toNat)) 0

/-- `parseFloat` applied to the captured token: sign times
(integer part + fractional part). -/
def floatOfCapture (c : NumCapture) : ℚ :=
  (if c.neg then -1 else 1) *
    ((digitsToNat c.intDs : ℚ) + (digitsToNat c.fracDs : ℚ) / (10 : ℚ) ^ c.fracDs.length)

/-- The `-?` step of the numeric regex: when a leading minus is present
and the pattern allows one, consume it; otherwise leave the input as is.
Returns (sign captured, remaining input). -/
def signSplit (allowMinus : Bool) (cs : List Char) : Bool × List Char :=
  match cs with
  | '-' :: rest => if allowMinus then (true, rest) else (false, cs)
  | _ => (false, cs)

/-- The `\.?\d*` step of the numeric regex: consume an optional dot and
the following digits.  Returns (fractional digits, remaining input). -/
def fracSplit (cs : List Char) : List Char × List Char :=
  match cs with
  | '.' :: rest => (rest.takeWhile Char.isDigit, rest.dropWhile Char.isDigit)
  | _ => ([], cs)

/-- One attempt of the JavaScript regex `(-?\d+\.?\d*)\s*<unit>`
(or `(\d+\.?\d*)\s*<unit>` when `allowMinus` is false) anchored at the
current position.  The pattern is deterministic here: after the numeric
capture the regex requires `\s*` and then the literal unit, and since the
unit begins with a letter no backtracking into the greedy digit
quantifiers can turn a failure into a success, so greedy matching is
equivalent to the JavaScript engine's behaviour. -/
def numMatchAt (allowMinus : Bool) (unit : List Char) (cs : List Char) : Option NumCapture :=
  let neg := (signSplit allowMinus cs).1
  let afterSign := (signSplit allowMinus cs).2
  let intDs := afterSign.takeWhile Char.isDigit
  if intDs.isEmpty then none
  else
    let afterInt := afterSign.dropWhile Char.isDigit
    let fracDs := (fracSplit afterInt).1
    let afterFrac := (fracSplit afterInt).2
    let afterWs := afterFrac.dropWhile jsWhitespace
    if unit.isPrefixOf afterWs then some ⟨neg, intDs, fracDs⟩
    else none

/-- Leftmost match of the numeric regex in a line, like JavaScript
`line.match(/(-?\d+\.?\d*)\s*<unit>/)`: the engine tries successive start
positions from the left and returns the first success. -/
def findCapture (allowMinus : Bool) (unit : List Char) : List Char → Option NumCapture
  | [] => none
  | c :: rest =>
    match numMatchAt allowMinus unit (c :: rest) with
    | some v => some v
    | none => findCapture allowMinus unit rest

/-- `EBULoudnessMetrics` (src/types.ts). -/
structure EBULoudnessMetrics where
  integratedLoudness : ℚ
  loudnessRange : ℚ
  truePeakMax : ℚ
  momentaryMax : ℚ
  shortTermMax : ℚ
deriving DecidableEq, Repr

/-- The all-zero metrics record that both parsers start from. -/
def zeroMetrics : EBULoudnessMetrics := ⟨0, 0, 0, 0, 0⟩

namespace FFmpegUtils

/-- One iteration of the line loop of `FFmpegUtils.parseEBUOutput`
(src/utils/ffmpeg-utils.ts, lines 19–33): an if/else-if chain on label
substrings; on a label hit the corresponding field is overwritten when the
numeric regex matches.  `momentaryMax`/`shortTermMax` are declared `const 0`
in the source and never updated. -/
def parseLine (m : EBULoudnessMetrics) (line : List Char) : EBULoudnessMetrics :=
  if containsSub "Input Integrated:".data line then
    match findCapture true "LUFS".data line with
    | some c => { m with integratedLoudness := floatOfCapture c }
    | none => m
  else if containsSub "Input LRA:".data line then
    match findCapture false "LU".data line with
    | some c => { m with loudnessRange := floatOfCapture c }
    | none => m
  else if containsSub "Input True Peak:".data line then
    match findCapture true "dBTP".data line with
    | some c => { m with truePeakMax := floatOfCapture c }
    | none => m
  else m

/-- The loop of `FFmpegUtils.parseEBUOutput` over the already-split lines. -/
def parseLines (ls : List (List Char)) : EBULoudnessMetrics :=
  ls.foldl parseLine zeroMetrics

/-- `FFmpegUtils.parseEBUOutput` (src/utils/ffmpeg-utils.ts): split the
diagnostic text on newlines and scan each line. -/
def parseEBUOutput (output : String) : EBULoudnessMetrics :=
  parseLines (splitOnChar '\n' output.data)

end FFmpegUtils

namespace StreamingAnalyzer

/-- One iteration of the line loop of `StreamingAnalyzer.parseEBUOutput`
(src/streaming-analyzer.ts, lines 198–215): same shape as the
`FFmpegUtils` parser but with the integrated-summary label vocabulary,
including the momentary/short-term maxima. -/
def parseLine (m : EBULoudnessMetrics) (line : List Char) : EBULoudnessMetrics :=
  if containsSub "Integrated loudness:".data line then
    match findCapture true "LUFS".data line with
    | some c => { m with integratedLoudness := floatOfCapture c }
    | none => m
  else if containsSub "Loudness range:".data line then
    match findCapture false "LU".data line with
    | some c => { m with loudnessRange := floatOfCapture c }
    | none => m
  else if containsSub "True peak:".data line then
    match findCapture true "dBTP".data line with
    | some c => { m with truePeakMax := floatOfCapture c }
    | none => m
  else if containsSub "Momentary max:".data line then
    match findCapture true "LUFS".data line with
    | some c => { m with momentaryMax := floatOfCapture c }
    | none => m
  else if containsSub "Short-term max:".data line then
    match findCapture true "LUFS".data line with
    | some c => { m with shortTermMax := floatOfCapture c }
    | none => m
  else m

/-- The loop of `StreamingAnalyzer.parseEBUOutput` over the split lines. -/
def parseLines (ls : List (List Char)) : EBULoudnessMetrics :=
  ls.foldl parseLine zeroMetrics

/-- `StreamingAnalyzer.parseEBUOutput` (src/streaming-analyzer.ts). -/
def parseEBUOutput (output : String) : EBULoudnessMetrics :=
  parseLines (splitOnChar '\n' output.data)

end StreamingAnalyzer

/-- The confidence tiers of a `StreamingCapability` verdict. -/
inductive Confidence
  | high
  | medium
  | low
deriving DecidableEq, Repr

/-- `StreamingCapability` (src/streaming-analyzer.ts). -/
structure StreamingCapability where
  canStream : Bool
  format : String
  confidence : Confidence
  fallbackReason : Option String
deriving DecidableEq, Repr

/-- An entry of the `STREAMABLE_FORMATS` table: confidence tier,
streamability flag, and (for the poorly streaming formats) a reason. -/
structure FormatCapability where
  confidence : Confidence
  canStream : Bool
  reason : Option String := none
deriving DecidableEq, Repr

namespace StreamingAnalyzer

/-- `StreamingAnalyzer.STREAMABLE_FORMATS` (src/streaming-analyzer.ts,
lines 13–33), in source order. -/
def STREAMABLE_FORMATS : List (String × FormatCapability) :=
  [("mp4", ⟨.high, true, none⟩),
   ("mov", ⟨.high, true, none⟩),
   ("m4v", ⟨.high, true, none⟩),
   ("ts", ⟨.high, true, none⟩),
   ("m2ts", ⟨.high, true, none⟩),
   ("webm", ⟨.high, true, none⟩),
   ("mxf", ⟨.medium, true, none⟩),
   ("mkv", ⟨.medium, true, none⟩),
   ("3gp", ⟨.medium, true, none⟩),
   ("avi", ⟨.low, false, some "index usually at end"⟩),
   ("wmv", ⟨.low, false, some "poor streaming support"⟩),
   ("flv", ⟨.low, false, some "metadata at end"⟩),
   ("rm", ⟨.low, false, some "proprietary format"⟩),
   ("rmvb", ⟨.low, false, some "variable bitrate issues"⟩)]

/-- `StreamingAnalyzer.extractExtension` (src/streaming-analyzer.ts,
lines 56–61): drop any query string, split the remaining path on dots,
and return the last dot-separated part when there is more than one. -/
def extractExtension (url : String) : String :=
  let urlPath := (splitOnChar '?' url.data).headD []
  let parts := splitOnChar '.' urlPath
  if parts.length > 1 then ⟨parts.getLastD []⟩ else ""

/-- JavaScript `String.prototype.toLowerCase` on the ASCII strings
involved here. -/
def toLowerStr (s : String) : String := ⟨s.data.map Char.toLower⟩

/-- `StreamingAnalyzer.getStreamingCapability` (src/streaming-analyzer.ts,
lines 35–54): look the lower-cased extension up in the fixed table; an
unknown extension yields a non-streamable low-confidence verdict with the
fallback reason string from the source. -/
def getStreamingCapability (url : String) : StreamingCapability :=
  let extension := extractExtension url
  match STREAMABLE_FORMATS.lookup (toLowerStr extension) with
  | none =>
    { canStream := false
      format := extension
      confidence := .low
      fallbackReason := some "Unknown format streaming capability" }
  | some capability =>
    { canStream := capability.canStream
      format := extension
      confidence := capability.confidence
      fallbackReason := capability.reason }

end StreamingAnalyzer

/-- The observable outcome of the probe's spawned ffprobe process
(src/streaming-analyzer.ts, lines 63–89): either the process emits a
`close` event carrying its exit code (`none` models the JavaScript `null`
code of a signal-terminated process, e.g. the 10-second timeout kill)
after `stdoutBytes` bytes were seen on standard output, or spawning
fails and only an `error` event fires. -/
inductive ProbeProcessOutcome
  | closed (code : Option Int) (stdoutBytes : ℕ)
  | spawnFailure
deriving DecidableEq, Repr

namespace StreamingAnalyzer

/-- `StreamingAnalyzer.testStreamingCapability` (src/streaming-analyzer.ts,
lines 63–89) as a function of the process outcome: the promise resolves
`code === 0 && hasOutput` on `close` and `false` on a spawn `error`; it is
total (never rejects/throws) by construction. -/
def testStreamingCapability : ProbeProcessOutcome → Bool
  | .closed code stdoutBytes => decide (code = some 0) && decide (0 < stdoutBytes)
  | .spawnFailure => false

end StreamingAnalyzer

/-- The `integratedLoudness` bounds of `EBUStandards` (src/types.ts). -/
structure LoudnessBounds where
  min : ℚ
  max : ℚ
  target : ℚ
deriving DecidableEq, Repr

/-- A bound with only a `max` field (`loudnessRange`, `truePeak` in
src/types.ts). -/
structure MaxBound where
  max : ℚ
deriving DecidableEq, Repr

/-- `EBUStandards` (src/types.ts). -/
structure EBUStandards where
  integratedLoudness : LoudnessBounds
  loudnessRange : MaxBound
  truePeak : MaxBound
deriving DecidableEq, Repr

/-- `EBU_R128_STANDARDS` (src/ebu-standards.ts): the broadcast table. -/
def EBU_R128_STANDARDS : EBUStandards :=
  { integratedLoudness := { min := -24, max := -22, target := -23 }
    loudnessRange := { max := 7 }
    truePeak := { max := -1 } }

/-- `EBU_R128_MUSIC_STANDARDS` (src/ebu-standards.ts): the music table. -/
def EBU_R128_MUSIC_STANDARDS : EBUStandards :=
  { integratedLoudness := { min := -18, max := -14, target := -16 }
    loudnessRange := { max := 20 }
    truePeak := { max := -1 } }

/-- A violation message pushed by `ComplianceChecker.checkCompliance`
(src/compliance-checker.ts).  The source pushes interpolated strings; each
constructor carries exactly the values interpolated into the
corresponding message. -/
inductive Violation
  | integratedOutOfRange (value min max : ℚ)
  | loudnessRangeExceeds (value max : ℚ)
  | truePeakExceeds (value max : ℚ)
deriving DecidableEq, Repr

/-- `EBUComplianceResult` (src/types.ts).  The `timestamp` field (an
impure clock read in the source) is omitted from the embedding. -/
structure EBUComplianceResult where
  file : String
  isCompliant : Bool
  metrics : EBULoudnessMetrics
  violations : List Violation
deriving DecidableEq, Repr

namespace ComplianceChecker

/-- `ComplianceChecker.checkCompliance` (src/compliance-checker.ts,
lines 8–42): collect a violation per exceeded threshold — integrated
loudness strictly outside `[min, max]`, loudness range strictly above its
maximum, true peak strictly above its maximum — and report compliance
exactly when no violation was collected; the metrics are passed through
into the result. -/
def checkCompliance (standards : EBUStandards) (filePath : String)
    (metrics : EBULoudnessMetrics) : EBUComplianceResult :=
  let v1 : List Violation :=
    if metrics.integratedLoudness < standards.integratedLoudness.min ∨
        metrics.integratedLoudness > standards.integratedLoudness.max then
      [.integratedOutOfRange metrics.integratedLoudness
        standards.integratedLoudness.min standards.integratedLoudness.max]
    else []
  let v2 : List Violation :=
    if metrics.loudnessRange > standards.loudnessRange.max then
      [.loudnessRangeExceeds metrics.loudnessRange standards.loudnessRange.max]
    else []
  let v3 : List Violation :=
    if metrics.truePeakMax > standards.truePeak.max then
      [.truePeakExceeds metrics.truePeakMax standards.truePeak.max]
    else []
  let violations := v1 ++ v2 ++ v3
  { file := filePath
    isCompliant := violations.length = 0
    metrics := metrics
    violations := violations }

end ComplianceChecker

/-- The externally observable actions that `AudioQC.analyze`
(src/index.ts) can perform, in order of occurrence. -/
inductive AnalyzeEvent
  | downloadFile
  | probeContainer
  | listStreams
  | spawnMeasurement
  | writeReport
  | uploadReport
  | unlinkTemp
deriving DecidableEq, Repr

/-- The errors thrown by `AudioQC.analyze` (src/index.ts), one per
`throw` site (re-thrown collaborator failures included). -/
inductive AnalyzeError
  | downloadFailed
  | inputNotFound
  | containerProbeFailed
  | noAudioInContainer
  | streamListFailed
  | noAudioStreams
  | measurementFailed
  | reportWriteFailed
  | reportUploadFailed
deriving DecidableEq, Repr

/-- Completion of one `AudioQC.analyze` call: the returned compliance
result, or the thrown error. -/
inductive AnalyzeOutcome
  | ok (result : EBUComplianceResult)
  | err (error : AnalyzeError)
deriving DecidableEq, Repr

namespace AudioQC

/-- The environment of one `AudioQC.analyze` invocation: the outcomes of
every collaborator call the method can make, each an observation the
model branches on exactly where the source awaits the collaborator.
`none` models a rejected promise / thrown error of that collaborator. -/
structure Env where
  /-- Result of the branch condition `S3Downloader.isS3Url(inputFile)`,
  a regex test on the input locator. -/
  isS3Url : Bool
  /-- `S3Downloader.downloadFileStatic(inputFile)`: the local temporary
  path on success. -/
  download : Option String
  /-- `fs.existsSync(inputFile)`. -/
  localExists : Bool
  /-- The `verbose` option. -/
  verbose : Bool
  /-- `ContainerDetector.isVideoContainer(localFilePath)`. -/
  isVideoContainer : Bool
  /-- `ContainerDetector.getContainerInfo(localFilePath).hasAudio`. -/
  containerHasAudio : Option Bool
  /-- `FFmpegAnalyzer.getAudioStreams(localFilePath).length`. -/
  audioStreamCount : Option ℕ
  /-- `FFmpegAnalyzer.analyzeFile(localFilePath, audioStreamIndex)`. -/
  measurement : Option EBULoudnessMetrics
  /-- Whether the `outputFile` option was given. -/
  outputFileRequested : Bool
  /-- `fs.writeFileSync(outputFile, ...)` succeeds. -/
  writeOk : Bool
  /-- Whether the `s3Upload` option was given. -/
  s3UploadRequested : Bool
  /-- `S3Uploader.uploadReportToS3(...)` succeeds. -/
  uploadOk : Bool
  /-- `fs.unlinkSync(localFilePath)` succeeds. -/
  unlinkOk : Bool
deriving DecidableEq, Repr

/-- Result of one modelled `AudioQC.analyze` call: outcome, event trace,
whether a temporary file was created, and whether it is still on disk
when the call returns. -/
structure AnalyzeResult where
  outcome : AnalyzeOutcome
  trace : List AnalyzeEvent
  tempCreated : Bool
  tempRemains : Bool
deriving DecidableEq, Repr

/-- One `try { fs.unlinkSync(localFilePath) } catch { /- swallowed -/ }`:
the file is gone afterwards iff the unlink call succeeds; a failure
leaves the file and is swallowed. -/
def tryUnlink (unlinkOk present : Bool) : Bool :=
  if unlinkOk then false else present

/-- The `catch`/`finally` exit of the measurement `try` block on an
error: the catch block unlinks the temporary file (swallowing failures),
the finally block unlinks it again (the second attempt fails harmlessly
on an already-deleted file), and the error is re-thrown. -/
def exitErr (env : Env) (isTemp present : Bool) (tr : List AnalyzeEvent)
    (e : AnalyzeError) : AnalyzeResult :=
  if isTemp then
    let present1 := tryUnlink env.unlinkOk present
    let present2 := tryUnlink env.unlinkOk present1
    ⟨.err e, tr ++ [.unlinkTemp, .unlinkTemp], isTemp, present2⟩
  else ⟨.err e, tr, isTemp, present⟩

/-- The `finally` exit of the measurement `try` block on success: unlink
the temporary file (swallowing failures) and return the result. -/
def exitOk (env : Env) (isTemp present : Bool) (tr : List AnalyzeEvent)
    (result : EBUComplianceResult) : AnalyzeResult :=
  if isTemp then
    ⟨.ok result, tr ++ [.unlinkTemp], isTemp, tryUnlink env.unlinkOk present⟩
  else ⟨.ok result, tr, isTemp, present⟩

/-- The `s3Upload` step at the end of the `try` block (src/index.ts,
lines 95–103). -/
def uploadStep (env : Env) (isTemp present : Bool) (tr : List AnalyzeEvent)
    (result : EBUComplianceResult) : AnalyzeResult :=
  if env.s3UploadRequested then
    if env.uploadOk then exitOk env isTemp present (tr ++ [.uploadReport]) result
    else exitErr env isTemp present (tr ++ [.uploadReport]) .reportUploadFailed
  else exitOk env isTemp present tr result

/-- The measurement `try`/`catch`/`finally` block of `AudioQC.analyze`
(src/index.ts, lines 75–128): measure, check compliance, optionally write
and upload the report; any failure is caught, the temporary file is
cleaned up on every exit, and cleanup failures are swallowed. -/
def runTryBlock (env : Env) (standards : EBUStandards) (inputFile : String)
    (isTemp present : Bool) (tr : List AnalyzeEvent) : AnalyzeResult :=
  let tr := tr ++ [.spawnMeasurement]
  match env.measurement with
  | none => exitErr env isTemp present tr .measurementFailed
  | some metrics =>
    let result := ComplianceChecker.checkCompliance standards inputFile metrics
    if env.outputFileRequested then
      if env.writeOk then uploadStep env isTemp present (tr ++ [.writeReport]) result
      else exitErr env isTemp present (tr ++ [.writeReport]) .reportWriteFailed
    else uploadStep env isTemp present tr result

/-- The audio-stream listing of the verbose block (src/index.ts,
lines 58–64): a listing failure propagates uncaught (before the
`try`/`finally`, so without cleanup); an empty listing cleans up the
temporary file and throws. -/
def listStreamsStep (env : Env) (standards : EBUStandards) (inputFile : String)
    (isTemp present : Bool) (tr : List AnalyzeEvent) : AnalyzeResult :=
  let tr := tr ++ [.listStreams]
  match env.audioStreamCount with
  | none => ⟨.err .streamListFailed, tr, isTemp, present⟩
  | some n =>
    if n = 0 then
      if isTemp then
        ⟨.err .noAudioStreams, tr ++ [.unlinkTemp], isTemp, tryUnlink env.unlinkOk present⟩
      else ⟨.err .noAudioStreams, tr, isTemp, present⟩
    else runTryBlock env standards inputFile isTemp present tr

/-- The verbose block of `AudioQC.analyze` (src/index.ts, lines 43–73):
for video containers, probe the container first (a probe failure
propagates uncaught, without cleanup; a container without audio cleans up
and throws), then list the audio streams. -/
def verboseSection (env : Env) (standards : EBUStandards) (inputFile : String)
    (isTemp present : Bool) (tr : List AnalyzeEvent) : AnalyzeResult :=
  if env.isVideoContainer then
    let tr := tr ++ [.probeContainer]
    match env.containerHasAudio with
    | none => ⟨.err .containerProbeFailed, tr, isTemp, present⟩
    | some hasAudio =>
      if hasAudio then listStreamsStep env standards inputFile isTemp present tr
      else
        if isTemp then
          ⟨.err .noAudioInContainer, tr ++ [.unlinkTemp], isTemp, tryUnlink env.unlinkOk present⟩
        else ⟨.err .noAudioInContainer, tr, isTemp, present⟩
  else listStreamsStep env standards inputFile isTemp present tr

/-- `AudioQC.analyze` after input resolution: the verbose block when
requested, then the measurement block. -/
def afterResolve (env : Env) (standards : EBUStandards) (inputFile : String)
    (isTemp present : Bool) (tr : List AnalyzeEvent) : AnalyzeResult :=
  if env.verbose then verboseSection env standards inputFile isTemp present tr
  else runTryBlock env standards inputFile isTemp present tr

/-- `AudioQC.analyze` (src/index.ts, lines 18–131): an S3 input is
downloaded to a temporary file first (a download failure is terminal); a
non-S3 input that does not exist locally throws before anything is
spawned or downloaded; then the verbose and measurement phases run. -/
def analyze (env : Env) (standards : EBUStandards) (inputFile : String) : AnalyzeResult :=
  if env.isS3Url then
    match env.download with
    | none => ⟨.err .downloadFailed, [.downloadFile], false, false⟩
    | some _ => afterResolve env standards inputFile true true [.downloadFile]
  else
    if env.localExists then afterResolve env standards inputFile false false []
    else ⟨.err .inputNotFound, [], false, false⟩

end AudioQC

/-- The claim's classification table, written from its wording: the three
confidence groups by extension (case-insensitive, after query stripping),
the per-format fallback reasons, and the unknown-format default (with the
reason string the source actually uses). -/
def classifySpec (url : String) : StreamingCapability :=
  let extension := StreamingAnalyzer.extractExtension url
  let e := StreamingAnalyzer.toLowerStr extension
  if e = "mp4" ∨ e = "mov" ∨ e = "m4v" ∨ e = "ts" ∨ e = "m2ts" ∨ e = "webm" then
    ⟨true, extension, .high, none⟩
  else if e = "mxf" ∨ e = "mkv" ∨ e = "3gp" then
    ⟨true, extension, .medium, none⟩
  else if e = "avi" then ⟨false, extension, .low, some "index usually at end"⟩
  else if e = "wmv" then ⟨false, extension, .low, some "poor streaming support"⟩
  else if e = "flv" then ⟨false, extension, .low, some "metadata at end"⟩
  else if e = "rm" then ⟨false, extension, .low, some "proprietary format"⟩
  else if e = "rmvb" then ⟨false, extension, .low, some "variable bitrate issues"⟩
  else ⟨false, extension, .low, some "Unknown format streaming capability"⟩

/-- A metrics record whose loudness range and true peak comply with the
broadcast table, with a variable integrated loudness, for probing the
compliance boundary. -/
def metricsWithIL (il : ℚ) : EBULoudnessMetrics := ⟨il, 5, -2, 0, 0⟩

namespace AudioQC

/-- The environment reaches the measurement `try` block: when verbose,
the container probe (if the path looks like a video container) reports
audio and the stream listing succeeds with a nonzero count. -/
def reachesMeasurement (env : Env) : Prop :=
  env.verbose = true →
    ((env.isVideoContainer = true → env.containerHasAudio = some true) ∧
      ∃ n : ℕ, env.audioStreamCount = some n ∧ n ≠ 0)

end AudioQC

/-- A concrete environment for an S3 input whose download and measurement
both succeed, without verbose mode. -/
def envCleanup : AudioQC.Env :=
  { isS3Url := true
    download := some "/tmp/audio-qc-1-a.wav"
    localExists := false
    verbose := false
    isVideoContainer := false
    containerHasAudio := some true
    audioStreamCount := some 1
    measurement := some zeroMetrics
    outputFileRequested := false
    writeOk := true
    s3UploadRequested := false
    uploadOk := true
    unlinkOk := true }

/-- A concrete environment for a non-URL input that does not exist on the
local filesystem. -/
def envNotFound : AudioQC.Env :=
  { envCleanup with isS3Url := false, download := none, localExists := false }

/-- A concrete environment for an S3-hosted mp4 whose remote measurement
would succeed: the download and the local measurement both succeed. -/
def envS3mp4 : AudioQC.Env :=
  { envCleanup with download := some "/tmp/audio-qc-2-video.mp4" }

/-- C1 (counterexample): the claim's dual-vocabulary tolerance fails —
the filter-mode parser extracts nothing from summary-mode text and the
summary-mode parser extracts nothing from filter-mode text; both leave
the integrated loudness at the 0 default instead of -25.2. -/
theorem parsers_reject_other_vocabulary :
    (FFmpegUtils.parseEBUOutput "Integrated loudness: -25.2 LUFS").integratedLoudness = 0 ∧
    (StreamingAnalyzer.parseEBUOutput "Input Integrated: -25.2 LUFS").integratedLoudness = 0 ∧
    ((0 : ℚ) ≠ -25.2) :=
  ⟨rfl, rfl, by norm_num⟩

/-- C1 (amended): each invocation mode has its own parser handling only
its own label vocabulary — `FFmpegUtils.parseEBUOutput` extracts -25.2
from the filter-mode line and `StreamingAnalyzer.parseEBUOutput` extracts
-25.2 from the summary-mode line. -/
theorem parsers_handle_own_vocabulary :
    (FFmpegUtils.parseEBUOutput "Input Integrated: -25.2 LUFS").integratedLoudness = -25.2 ∧
    (StreamingAnalyzer.parseEBUOutput "Integrated loudness: -25.2 LUFS").integratedLoudness = -25.2 := by
  have h1 : (FFmpegUtils.parseEBUOutput "Input Integrated: -25.2 LUFS").integratedLoudness
      = floatOfCapture ⟨true, ['2', '5'], ['2']⟩ := rfl
  have h2 : (StreamingAnalyzer.parseEBUOutput "Integrated loudness: -25.2 LUFS").integratedLoudness
      = floatOfCapture ⟨true, ['2', '5'], ['2']⟩ := rfl
  rw [h1, h2]
  norm_num [floatOfCapture, show digitsToNat ['2', '5'] = 25 by decide,
    show digitsToNat ['2'] = 2 by decide]

/-- C4 (code evaluated at the failing input): for an S3-hosted mp4 —
whose streaming verdict is streamable with high confidence — `analyze`
downloads to a temporary file before any measurement is spawned and never
invokes measurement against the URL; the claim's "no temporary file ever
created on remote success" is violated on every successful S3 analysis. -/
theorem analyze_downloads_streamable_s3_input :
    (StreamingAnalyzer.getStreamingCapability "s3://bucket/video.mp4").canStream = true ∧
    (StreamingAnalyzer.getStreamingCapability "s3://bucket/video.mp4").confidence = .high ∧
    (AudioQC.analyze envS3mp4 EBU_R128_STANDARDS "s3://bucket/video.mp4").trace =
      [.downloadFile, .spawnMeasurement, .unlinkTemp] ∧
    (AudioQC.analyze envS3mp4 EBU_R128_STANDARDS "s3://bucket/video.mp4").tempCreated = true :=
  ⟨rfl, rfl, rfl, rfl⟩

/-- C5 (counterexample): an unknown extension does yield a non-streamable
low-confidence verdict, but its reason string is the source's
"Unknown format streaming capability", not the claim's "unknown format". -/
theorem classify_unknown_reason_differs :
    (StreamingAnalyzer.getStreamingCapability "clip.xyz").canStream = false ∧
    (StreamingAnalyzer.getStreamingCapability "clip.xyz").confidence = .low ∧
    (StreamingAnalyzer.getStreamingCapability "clip.xyz").fallbackReason =
      some "Unknown format streaming capability" ∧
    (StreamingAnalyzer.getStreamingCapability "clip.xyz").fallbackReason ≠
      some "unknown format" := by
  refine ⟨rfl, rfl, rfl, ?_⟩
  decide

/-- C6: the probe returns true iff the process closed with exit status 0
having produced at least one byte of standard output; every other outcome
(non-zero or signal exit, timeout kill, spawn failure) returns false, and
the function is total. -/
theorem testStreamingCapability_true_iff (o : ProbeProcessOutcome) :
    StreamingAnalyzer.testStreamingCapability o = true ↔
      ∃ n : ℕ, 0 < n ∧ o = .closed (some 0) n := by
  cases o with
  | closed code stdoutBytes =>
    simp only [StreamingAnalyzer.testStreamingCapability, Bool.and_eq_true, decide_eq_true_eq,
      ProbeProcessOutcome.closed.injEq]
    constructor
    · rintro ⟨hc, hb⟩
      exact ⟨stdoutBytes, hb, hc, rfl⟩
    · rintro ⟨n, hn, hc, hb⟩
      exact ⟨hc, hb ▸ hn⟩
  | spawnFailure =>
    simp [StreamingAnalyzer.testStreamingCapability]

/-- C8: a non-URL input that does not exist locally fails with the
input-not-found error with an empty event trace — no download, no process
spawn — and no temporary file is created. -/
theorem analyze_missing_input_fails_fast (env : AudioQC.Env) (standards : EBUStandards)
    (inputFile : String) (h1 : env.isS3Url = false) (h2 : env.localExists = false) :
    (AudioQC.analyze env standards inputFile).outcome = .err .inputNotFound ∧
    (AudioQC.analyze env standards inputFile).trace = [] ∧
    (AudioQC.analyze env standards inputFile).tempCreated = false := by
  simp [AudioQC.analyze, h1, h2]

/-- C8 (witness): the fail-fast theorem applied to a concrete
non-existent local input. -/
theorem analyze_missing_input_fails_fast_witness :
    envNotFound.isS3Url = false ∧ envNotFound.localExists = false ∧
    (AudioQC.analyze envNotFound EBU_R128_STANDARDS "nonexistent.wav").outcome =
      .err .inputNotFound ∧
    (AudioQC.analyze envNotFound EBU_R128_STANDARDS "nonexistent.wav").trace = [] :=
  ⟨rfl, rfl, (analyze_missing_input_fails_fast envNotFound EBU_R128_STANDARDS
      "nonexistent.wav" rfl rfl).1,
    (analyze_missing_input_fails_fast envNotFound EBU_R128_STANDARDS
      "nonexistent.wav" rfl rfl).2.1⟩

/-- C9: under the broadcast table, integrated loudness exactly -24 or
exactly -22 is compliant, while -24.1 and -21.9 each produce an
integrated-loudness violation: the bounds are inclusive. -/
theorem broadcast_integrated_bounds_inclusive :
    (ComplianceChecker.checkCompliance EBU_R128_STANDARDS "clip.wav"
      (metricsWithIL (-24))).isCompliant = true ∧
    (ComplianceChecker.checkCompliance EBU_R128_STANDARDS "clip.wav"
      (metricsWithIL (-22))).isCompliant = true ∧
    (ComplianceChecker.checkCompliance EBU_R128_STANDARDS "clip.wav"
      (metricsWithIL (-24.1))).violations =
      [.integratedOutOfRange (-24.1) (-24) (-22)] ∧
    (ComplianceChecker.checkCompliance EBU_R128_STANDARDS "clip.wav"
      (metricsWithIL (-24.1))).isCompliant = false ∧
    (ComplianceChecker.checkCompliance EBU_R128_STANDARDS "clip.wav"
      (metricsWithIL (-21.9))).violations =
      [.integratedOutOfRange (-21.9) (-24) (-22)] ∧
    (ComplianceChecker.checkCompliance EBU_R128_STANDARDS "clip.wav"
      (metricsWithIL (-21.9))).isCompliant = false := by
  norm_num [ComplianceChecker.checkCompliance, EBU_R128_STANDARDS, metricsWithIL]

/-- With `allowMinus = false`, the sign step never consumes anything. -/
lemma signSplit_noMinus (cs : List Char) : signSplit false cs = (false, cs) := by
  unfold signSplit
  split <;> simp

/-- With `allowMinus = false` (the `LU` pattern `(\d+\.?\d*)\s*LU`), a
single match attempt can only capture an unsigned token. -/
lemma numMatchAt_noMinus_neg (u : List Char) :
    ∀ cs c, numMatchAt false u cs = some c → c.neg = false := by
  intro cs c h
  unfold numMatchAt at h
  rw [signSplit_noMinus] at h
  dsimp only at h
  split_ifs at h
  simp_all
  exact h ▸ rfl

/-- With `allowMinus = false`, no match anywhere in the line carries a
sign: the `LU` pattern cannot capture a leading minus. -/
lemma findCapture_noMinus_neg (u : List Char) :
    ∀ cs c, findCapture false u cs = some c → c.neg = false := by
  intro cs
  induction cs with
  | nil => intro c h; simp [findCapture] at h
  | cons hd tl ih =>
    intro c h
    unfold findCapture at h
    rcases hm : numMatchAt false u (hd :: tl) with _ | v
    · rw [hm] at h
      exact ih c h
    · rw [hm] at h
      simp only [Option.some.injEq] at h
      exact h ▸ numMatchAt_noMinus_neg u (hd :: tl) v hm

/-- C3 (counterexample): with two lines carrying the same label, the
parser returns the value of the second (last) line, not the first. -/
theorem duplicate_label_first_does_not_win :
    (FFmpegUtils.parseEBUOutput
      "Input Integrated: -25.2 LUFS\nInput Integrated: -30.5 LUFS").integratedLoudness = -30.5 ∧
    (FFmpegUtils.parseEBUOutput
      "Input Integrated: -25.2 LUFS\nInput Integrated: -30.5 LUFS").integratedLoudness ≠ -25.2 := by
  have h : (FFmpegUtils.parseEBUOutput
      "Input Integrated: -25.2 LUFS\nInput Integrated: -30.5 LUFS").integratedLoudness
      = floatOfCapture ⟨true, ['3', '0'], ['5']⟩ := rfl
  constructor
  · rw [h]
    norm_num [floatOfCapture, show digitsToNat ['3', '0'] = 30 by decide,
      show digitsToNat ['5'] = 5 by decide]
  · rw [h]
    norm_num [floatOfCapture, show digitsToNat ['3', '0'] = 30 by decide,
      show digitsToNat ['5'] = 5 by decide]

/-- C3 (amended): each matching line overwrites the previously stored
value, so for any diagnostic whose final line matches the
integrated-loudness label, the parser keeps the value of that last
matching line; earlier duplicate lines are the ones ignored. -/
theorem duplicate_label_last_wins (pre : List (List Char)) (line : List Char) (c : NumCapture)
    (hLabel : containsSub "Input Integrated:".data line = true)
    (hNum : findCapture true "LUFS".data line = some c) :
    (FFmpegUtils.parseLines (pre ++ [line])).integratedLoudness = floatOfCapture c := by
  unfold FFmpegUtils.parseLines
  rw [List.foldl_append]
  simp [FFmpegUtils.parseLine, hLabel, hNum]

/-- C3 (witness): the last-match-wins theorem applied to the concrete
two-line duplicate diagnostic. -/
theorem duplicate_label_last_wins_witness :
    containsSub "Input Integrated:".data "Input Integrated: -30.5 LUFS".data = true ∧
    findCapture true "LUFS".data "Input Integrated: -30.5 LUFS".data =
      some ⟨true, ['3', '0'], ['5']⟩ ∧
    (FFmpegUtils.parseLines
      (["Input Integrated: -25.2 LUFS".data] ++
        ["Input Integrated: -30.5 LUFS".data])).integratedLoudness =
      floatOfCapture ⟨true, ['3', '0'], ['5']⟩ :=
  ⟨by decide, by decide,
    duplicate_label_last_wins ["Input Integrated: -25.2 LUFS".data]
      "Input Integrated: -30.5 LUFS".data ⟨true, ['3', '0'], ['5']⟩
      (by decide) (by decide)⟩

/-- C7 (counterexample): a negative loudness-range line is parsed to the
unsigned value 3.5, not -3.5 — the `LU` regex has no optional minus. -/
theorem lra_negative_value_loses_sign :
    (FFmpegUtils.parseEBUOutput "Input LRA: -3.5 LU").loudnessRange = 3.5 ∧
    (FFmpegUtils.parseEBUOutput "Input LRA: -3.5 LU").loudnessRange ≠ -3.5 := by
  have h : (FFmpegUtils.parseEBUOutput "Input LRA: -3.5 LU").loudnessRange
      = floatOfCapture ⟨false, ['3'], ['5']⟩ := rfl
  constructor
  · rw [h]
    norm_num [floatOfCapture, show digitsToNat ['3'] = 3 by decide,
      show digitsToNat ['5'] = 5 by decide]
  · rw [h]
    norm_num [floatOfCapture, show digitsToNat ['3'] = 3 by decide,
      show digitsToNat ['5'] = 5 by decide]

/-- C7 (amended): the integrated-loudness and true-peak patterns accept an
optional leading minus and preserve it, but the loudness-range pattern
contains no minus sign: any `LU` capture is unsigned, and a negative LRA
line yields the digits after the minus (3.5 for "-3.5 LU"). -/
theorem lra_pattern_has_no_sign (line : List Char) (c : NumCapture)
    (h : findCapture false "LU".data line = some c) :
    c.neg = false ∧
    (FFmpegUtils.parseEBUOutput "Input LRA: -3.5 LU").loudnessRange = 3.5 ∧
    (FFmpegUtils.parseEBUOutput "Input Integrated: -25.2 LUFS").integratedLoudness = -25.2 ∧
    (FFmpegUtils.parseEBUOutput "Input True Peak: -0.5 dBTP").truePeakMax = -0.5 := by
  refine ⟨findCapture_noMinus_neg "LU".data line c h, ?_, ?_, ?_⟩
  · have h1 : (FFmpegUtils.parseEBUOutput "Input LRA: -3.5 LU").loudnessRange
        = floatOfCapture ⟨false, ['3'], ['5']⟩ := rfl
    rw [h1]
    norm_num [floatOfCapture, show digitsToNat ['3'] = 3 by decide,
      show digitsToNat ['5'] = 5 by decide]
  · have h2 : (FFmpegUtils.parseEBUOutput "Input Integrated: -25.2 LUFS").integratedLoudness
        = floatOfCapture ⟨true, ['2', '5'], ['2']⟩ := rfl
    rw [h2]
    norm_num [floatOfCapture, show digitsToNat ['2', '5'] = 25 by decide,
      show digitsToNat ['2'] = 2 by decide]
  · have h3 : (FFmpegUtils.parseEBUOutput "Input True Peak: -0.5 dBTP").truePeakMax
        = floatOfCapture ⟨true, ['0'], ['5']⟩ := rfl
    rw [h3]
    norm_num [floatOfCapture, show digitsToNat ['0'] = 0 by decide,
      show digitsToNat ['5'] = 5 by decide]

/-- C7 (witness): the no-sign theorem applied to the concrete negative
LRA line. -/
theorem lra_pattern_has_no_sign_witness :
    findCapture false "LU".data "Input LRA: -3.5 LU".data = some ⟨false, ['3'], ['5']⟩ ∧
    (⟨false, ['3'], ['5']⟩ : NumCapture).neg = false :=
  ⟨by decide,
    (lra_pattern_has_no_sign "Input LRA: -3.5 LU".data ⟨false, ['3'], ['5']⟩ (by decide)).1⟩

/-- C10: `checkCompliance` reports compliance exactly when the violations
list is empty, which holds exactly when integrated loudness lies within
its inclusive bounds and loudness range and true peak do not exceed their
maxima; and the returned result carries the input metrics unchanged. -/
theorem checkCompliance_iff (standards : EBUStandards) (filePath : String)
    (metrics : EBULoudnessMetrics) :
    ((ComplianceChecker.checkCompliance standards filePath metrics).isCompliant = true ↔
      (ComplianceChecker.checkCompliance standards filePath metrics).violations = []) ∧
    ((ComplianceChecker.checkCompliance standards filePath metrics).violations = [] ↔
      (standards.integratedLoudness.min ≤ metrics.integratedLoudness ∧
        metrics.integratedLoudness ≤ standards.integratedLoudness.max ∧
        metrics.loudnessRange ≤ standards.loudnessRange.max ∧
        metrics.truePeakMax ≤ standards.truePeak.max)) ∧
    (ComplianceChecker.checkCompliance standards filePath metrics).metrics = metrics := by
  unfold ComplianceChecker.checkCompliance
  dsimp only
  split_ifs with h1 h2 h3 <;>
    simp_all [not_or, not_lt, List.length_eq_zero]
  rcases h1 with h1 | h1
  · exact fun hge => absurd h1 (not_lt.mpr hge)
  · exact fun _ => h1

/-- C5 (amended): for every input string, `getStreamingCapability`
returns the verdict demanded by the claim's fixed table — matched
case-insensitively after query stripping — including the unknown-format
default with the source's reason string. -/
theorem getStreamingCapability_matches_table (url : String) :
    StreamingAnalyzer.getStreamingCapability url = classifySpec url := by
  unfold StreamingAnalyzer.getStreamingCapability classifySpec
  dsimp only
  set e := StreamingAnalyzer.toLowerStr (StreamingAnalyzer.extractExtension url) with he
  by_cases h1 : e = "mp4"
  · simp [StreamingAnalyzer.STREAMABLE_FORMATS, List.lookup, h1]
  by_cases h2 : e = "mov"
  · simp [StreamingAnalyzer.STREAMABLE_FORMATS, List.lookup, h1, h2]
  by_cases h3 : e = "m4v"
  · simp [StreamingAnalyzer.STREAMABLE_FORMATS, List.lookup, h1, h2, h3]
  by_cases h4 : e = "ts"
  · simp [StreamingAnalyzer.STREAMABLE_FORMATS, List.lookup, h1, h2, h3, h4]
  by_cases h5 : e = "m2ts"
  · simp [StreamingAnalyzer.STREAMABLE_FORMATS, List.lookup, h1, h2, h3, h4, h5]
  by_cases h6 : e = "webm"
  · simp [StreamingAnalyzer.STREAMABLE_FORMATS, List.lookup, h1, h2, h3, h4, h5, h6]
  by_cases h7 : e = "mxf"
  · simp [StreamingAnalyzer.STREAMABLE_FORMATS, List.lookup, h1, h2, h3, h4, h5, h6, h7]
  by_cases h8 : e = "mkv"
  · simp [StreamingAnalyzer.STREAMABLE_FORMATS, List.lookup, h1, h2, h3, h4, h5, h6, h7, h8]
  by_cases h9 : e = "3gp"
  · simp [StreamingAnalyzer.STREAMABLE_FORMATS, List.lookup, h1, h2, h3, h4, h5, h6, h7, h8, h9]
  by_cases h10 : e = "avi"
  · simp [StreamingAnalyzer.STREAMABLE_FORMATS, List.lookup, h1, h2, h3, h4, h5, h6, h7, h8, h9, h10]
  by_cases h11 : e = "wmv"
  · simp [StreamingAnalyzer.STREAMABLE_FORMATS, List.lookup, h1, h2, h3, h4, h5, h6, h7, h8, h9, h10, h11]
  by_cases h12 : e = "flv"
  · simp [StreamingAnalyzer.STREAMABLE_FORMATS, List.lookup, h1, h2, h3, h4, h5, h6, h7, h8, h9, h10, h11, h12]
  by_cases h13 : e = "rm"
  · simp [StreamingAnalyzer.STREAMABLE_FORMATS, List.lookup, h1, h2, h3, h4, h5, h6, h7, h8, h9, h10, h11, h12, h13]
  by_cases h14 : e = "rmvb"
  · simp [StreamingAnalyzer.STREAMABLE_FORMATS, List.lookup, h1, h2, h3, h4, h5, h6, h7, h8, h9, h10, h11, h12, h13, h14]
  simp [StreamingAnalyzer.STREAMABLE_FORMATS, List.lookup, h1, h2, h3, h4, h5, h6, h7, h8, h9, h10, h11, h12, h13, h14,
    show (e == "mp4") = false from beq_eq_false_iff_ne.mpr h1,
    show (e == "mov") = false from beq_eq_false_iff_ne.mpr h2,
    show (e == "m4v") = false from beq_eq_false_iff_ne.mpr h3,
    show (e == "ts") = false from beq_eq_false_iff_ne.mpr h4,
    show (e == "m2ts") = false from beq_eq_false_iff_ne.mpr h5,
    show (e == "webm") = false from beq_eq_false_iff_ne.mpr h6,
    show (e == "mxf") = false from beq_eq_false_iff_ne.mpr h7,
    show (e == "mkv") = false from beq_eq_false_iff_ne.mpr h8,
    show (e == "3gp") = false from beq_eq_false_iff_ne.mpr h9,
    show (e == "avi") = false from beq_eq_false_iff_ne.mpr h10,
    show (e == "wmv") = false from beq_eq_false_iff_ne.mpr h11,
    show (e == "flv") = false from beq_eq_false_iff_ne.mpr h12,
    show (e == "rm") = false from beq_eq_false_iff_ne.mpr h13,
    show (e == "rmvb") = false from beq_eq_false_iff_ne.mpr h14]

/-- Inside the measurement `try` block with a temporary file present, a
successful unlink removes the file on every exit path. -/
lemma runTryBlock_cleanup (env : AudioQC.Env) (std : EBUStandards) (inp : String)
    (present : Bool) (tr : List AnalyzeEvent) (h : env.unlinkOk = true) :
    (AudioQC.runTryBlock env std inp true present tr).tempRemains = false := by
  cases hm : env.measurement <;>
    simp [AudioQC.runTryBlock, AudioQC.uploadStep, AudioQC.exitErr, AudioQC.exitOk,
      AudioQC.tryUnlink, hm, h]
  split_ifs <;> simp [h]

/-- Inside the measurement `try` block, the outcome (result or re-thrown
error) does not depend on whether the cleanup unlink succeeds. -/
lemma runTryBlock_outcome_indep (env : AudioQC.Env) (std : EBUStandards) (inp : String)
    (present : Bool) (tr : List AnalyzeEvent) (b : Bool) :
    (AudioQC.runTryBlock { env with unlinkOk := b } std inp true present tr).outcome =
      (AudioQC.runTryBlock env std inp true present tr).outcome := by
  cases hm : env.measurement <;>
    simp [AudioQC.runTryBlock, AudioQC.uploadStep, AudioQC.exitErr, AudioQC.exitOk,
      AudioQC.tryUnlink, hm]
  split_ifs <;> simp

/-- When the verbose pre-checks pass, the post-resolution phase reduces
to the measurement `try` block (with some accumulated trace), for an
environment and the same environment with a different unlink outcome. -/
lemma afterResolve_runTryBlock (env : AudioQC.Env) (b : Bool) (std : EBUStandards)
    (inp : String) (present : Bool) (tr : List AnalyzeEvent)
    (h3 : AudioQC.reachesMeasurement env) :
    ∃ tr2,
      AudioQC.afterResolve env std inp true present tr =
        AudioQC.runTryBlock env std inp true present tr2 ∧
      AudioQC.afterResolve { env with unlinkOk := b } std inp true present tr =
        AudioQC.runTryBlock { env with unlinkOk := b } std inp true present tr2 := by
  cases hv : env.verbose with
  | false =>
    exact ⟨tr, by simp [AudioQC.afterResolve, hv], by simp [AudioQC.afterResolve, hv]⟩
  | true =>
    obtain ⟨hca, n, hn, hnz⟩ := h3 hv
    cases hic : env.isVideoContainer with
    | false =>
      refine ⟨tr ++ [.listStreams], ?_, ?_⟩ <;>
        simp [AudioQC.afterResolve, AudioQC.verboseSection, AudioQC.listStreamsStep,
          hv, hic, hn, hnz]
    | true =>
      refine ⟨tr ++ [.probeContainer] ++ [.listStreams], ?_, ?_⟩ <;>
        simp [AudioQC.afterResolve, AudioQC.verboseSection, AudioQC.listStreamsStep,
          hv, hic, hca hic, hn, hnz]

/-- C2: when a temporary file was created by the S3 download fallback and
the analysis reaches the measurement phase, the temporary file is deleted
on every exit path (success, measurement failure, report write or upload
failure) provided the deletion call succeeds; and the outcome returned to
the caller — primary result or primary error — is the same whether or not
the deletion succeeds: cleanup failures are swallowed. -/
theorem analyze_cleans_temp_on_every_exit (env : AudioQC.Env) (standards : EBUStandards)
    (inputFile p : String) (h1 : env.isS3Url = true) (h2 : env.download = some p)
    (h3 : AudioQC.reachesMeasurement env) :
    (env.unlinkOk = true → (AudioQC.analyze env standards inputFile).tempRemains = false) ∧
    (∀ b : Bool,
      (AudioQC.analyze { env with unlinkOk := b } standards inputFile).outcome =
        (AudioQC.analyze env standards inputFile).outcome) := by
  obtain ⟨tr2, heq, heqb⟩ :=
    afterResolve_runTryBlock env env.unlinkOk standards inputFile true [.downloadFile] h3
  constructor
  · intro hu
    have hred : AudioQC.analyze env standards inputFile =
        AudioQC.afterResolve env standards inputFile true true [.downloadFile] := by
      simp [AudioQC.analyze, h1, h2]
    rw [hred, heq]
    exact runTryBlock_cleanup env standards inputFile true tr2 hu
  · intro b
    obtain ⟨tr3, heq3, heqb3⟩ :=
      afterResolve_runTryBlock env b standards inputFile true [.downloadFile] h3
    have hred : AudioQC.analyze env standards inputFile =
        AudioQC.afterResolve env standards inputFile true true [.downloadFile] := by
      simp [AudioQC.analyze, h1, h2]
    have hredb : AudioQC.analyze { env with unlinkOk := b } standards inputFile =
        AudioQC.afterResolve { env with unlinkOk := b } standards inputFile true true
          [.downloadFile] := by
      simp [AudioQC.analyze, h1, h2]
    rw [hred, hredb, heq3, heqb3]
    exact runTryBlock_outcome_indep env standards inputFile true tr3 b

/-- C2 (witness): the cleanup theorem applied to a concrete successful
S3 analysis. -/
theorem analyze_cleans_temp_on_every_exit_witness :
    envCleanup.isS3Url = true ∧ envCleanup.download = some "/tmp/audio-qc-1-a.wav" ∧
    envCleanup.unlinkOk = true ∧
    (AudioQC.analyze envCleanup EBU_R128_STANDARDS "s3://bucket/a.wav").tempRemains = false :=
  ⟨rfl, rfl, rfl,
    (analyze_cleans_temp_on_every_exit envCleanup EBU_R128_STANDARDS "s3://bucket/a.wav"
      "/tmp/audio-qc-1-a.wav" rfl rfl (by intro hv; simp [envCleanup] at hv)).1 rfl⟩
